import Mathlib

/-!
Verification of the openport tunnel broker core.

The development shallowly embeds the repository sources:

* `src/web/src/lib/tunnel-agent.ts` (identical logic in `src/unnamed/part_001`)
  as a state machine `AgentState`/`step`: the fields mirror the class fields
  of `TunnelAgent`, the events mirror the handlers (`_onConnection`, the
  per-socket `close` handler, `createConnection`, `_onClose`), and the
  outputs record the emitted events and callback completions.
* `src/web/src/lib/client.ts` (`Client`): `closeClient`,
  `handleRequestOutcome`, `handleUpgradeCb` and the prologue serialization.
* `src/unnamed/part_000` (`ClientManager`): `ManagerState`, `newClient`,
  `removeClient` over an association list with Map semantics.

Ghost fields (`live`, `enqueuedWaiters`, `servedPairs`, `flushedWaiters`)
record history needed to state invariants; they do not influence any
decision taken by `step`, which follows the source line by line.
-/

namespace Openport

/-- `DEFAULT_MAX_SOCKETS` from tunnel-agent.ts line 6. -/
def DEFAULT_MAX_SOCKETS : Nat := 10

/-- `options.maxTcpSockets || DEFAULT_MAX_SOCKETS` (tunnel-agent.ts line 47):
in JS both `undefined` and `0` are falsy and fall back to the default. -/
def resolveMaxTcpSockets : Option Nat → Nat
  | some n => if n = 0 then DEFAULT_MAX_SOCKETS else n
  | none => DEFAULT_MAX_SOCKETS

/-- State of one `TunnelAgent`.  The first five fields are the class fields
`availableSockets`, `waitingCreateConn`, `connectedSockets`,
`maxTcpSockets`, `closed`.  Sockets are identified by `Nat` ids and waiters
(queued `createConnection` callbacks) by `Nat` ids.  `connectedSockets` is
an `Int` because the JS counter is decremented without a lower-bound guard.
The remaining fields are ghost history:
`live` lists admitted sockets whose `close` has not fired yet,
`enqueuedWaiters` lists every waiter ever pushed onto `waitingCreateConn`
in arrival order, `servedPairs` lists the (waiter, socket) deliveries in
delivery order, and `flushedWaiters` lists waiters completed with the
`closed` error by `_onClose`. -/
structure AgentState where
  availableSockets : List Nat
  waitingCreateConn : List Nat
  connectedSockets : Int
  maxTcpSockets : Nat
  closed : Bool
  live : List Nat
  enqueuedWaiters : List Nat
  servedPairs : List (Nat × Nat)
  flushedWaiters : List Nat
  deriving DecidableEq, Repr

/-- Observable outputs of one handler execution: emitted events (`online`,
`offline`, `end`) and callback completions.  `deliverSocket` is the
deferred (`setTimeout`) completion of a queued waiter from `_onConnection`;
`giveSocket` is the synchronous completion inside `createConnection`;
`closedError` is a completion with `new Error('closed')`;
`socketDestroyed` records a `socket.destroy()` call on an over-cap socket. -/
inductive Output where
  | online
  | offline
  | endEvent
  | deliverSocket (w s : Nat)
  | giveSocket (w s : Nat)
  | closedError (w : Nat)
  | socketDestroyed (s : Nat)
  deriving DecidableEq, Repr

/-- Events serialized on the agent (spec section 5: accepts, socket closes,
`createConnection` calls and the listener close never interleave
mid-update). -/
inductive Event where
  | accept (s : Nat)
  | socketClose (s : Nat)
  | createConn (w : Nat)
  | serverClose
  deriving DecidableEq, Repr

/-- Environment well-formedness: a `close` handler fires only once and only
for an admitted socket (`socket.once('close', ...)`), an accepted socket is
a fresh object, and the listener `close` event fires once. -/
def validEvent (st : AgentState) : Event → Bool
  | .accept s => !(st.live.contains s)
  | .socketClose s => st.live.contains s
  | .createConn _ => true
  | .serverClose => !st.closed

/-- One serialized handler execution, translated from tunnel-agent.ts.

* `accept s` is `_onConnection` (lines 110-169): cap check and
  `socket.destroy()`; `online` when the pre-increment count is zero;
  increment; shift a queued waiter and deliver on the next tick, else push
  onto `availableSockets`.
* `socketClose s` is the `socket.once('close', ...)` handler
  (lines 118-132): decrement, `splice` the socket out of
  `availableSockets`, emit `offline` when the resulting count is `<= 0`
  (the source does not consult `closed` here).
* `createConn w` is `createConnection` (lines 174-200): when `closed`,
  complete synchronously with the `closed` error; else `shift` the head of
  `availableSockets`, or queue the callback.
* `serverClose` is `_onClose` (lines 98-107): set `closed`, complete every
  queued waiter with the `closed` error, clear the queue, emit `end`.
  (`destroy()` at lines 202-205 only calls `server.close()`, which leads
  here; it does not touch `availableSockets`.) -/
def step (st : AgentState) : Event → AgentState × List Output
  | .accept s =>
    if (st.maxTcpSockets : Int) ≤ st.connectedSockets then
      (st, [Output.socketDestroyed s])
    else
      match st.waitingCreateConn with
      | w :: rest =>
        ({ st with connectedSockets := st.connectedSockets + 1,
                   live := st.live ++ [s],
                   waitingCreateConn := rest,
                   servedPairs := st.servedPairs ++ [(w, s)] },
         (if st.connectedSockets = 0 then [Output.online] else []) ++
           [Output.deliverSocket w s])
      | [] =>
        ({ st with connectedSockets := st.connectedSockets + 1,
                   live := st.live ++ [s],
                   availableSockets := st.availableSockets ++ [s] },
         if st.connectedSockets = 0 then [Output.online] else [])
  | .socketClose s =>
    ({ st with connectedSockets := st.connectedSockets - 1,
               availableSockets := st.availableSockets.erase s,
               live := st.live.erase s },
     if st.connectedSockets - 1 ≤ 0 then [Output.offline] else [])
  | .createConn w =>
    if st.closed then
      (st, [Output.closedError w])
    else
      match st.availableSockets with
      | s :: rest =>
        ({ st with availableSockets := rest }, [Output.giveSocket w s])
      | [] =>
        ({ st with waitingCreateConn := st.waitingCreateConn ++ [w],
                   enqueuedWaiters := st.enqueuedWaiters ++ [w] }, [])
  | .serverClose =>
    ({ st with closed := true,
               waitingCreateConn := [],
               flushedWaiters := st.flushedWaiters ++ st.waitingCreateConn },
     st.waitingCreateConn.map Output.closedError ++ [Output.endEvent])

/-- A freshly constructed agent (constructor, tunnel-agent.ts lines 28-55). -/
def initAgent (maxTcpSockets : Option Nat) : AgentState :=
  { availableSockets := []
    waitingCreateConn := []
    connectedSockets := 0
    maxTcpSockets := resolveMaxTcpSockets maxTcpSockets
    closed := false
    live := []
    enqueuedWaiters := []
    servedPairs := []
    flushedWaiters := [] }

/-- Run a sequence of serialized events, collecting all outputs. -/
def runTrace (st : AgentState) : List Event → AgentState × List Output
  | [] => (st, [])
  | e :: es =>
    let p := step st e
    let q := runTrace p.1 es
    (q.1, p.2 ++ q.2)

/-- Every event of the trace is well-formed in the state it fires in. -/
def validTrace (st : AgentState) : List Event → Bool
  | [] => true
  | e :: es => validEvent st e && validTrace (step st e).1 es

/-- Observable state of a `Client` (client.ts): whether the grace timer is
armed, whether the agent has been destroyed, and how many `close` events
have been emitted over the lifetime. -/
structure ClientState where
  timerArmed : Bool
  agentDestroyed : Bool
  closeEvents : Nat
  deriving DecidableEq, Repr

/-- A freshly constructed `Client`: the constructor arms the grace timer
(client.ts lines 28-30). -/
def freshClient : ClientState :=
  { timerArmed := true, agentDestroyed := false, closeEvents := 0 }

/-- `close()` (client.ts lines 60-64): `clearTimeout(this.graceTimeout)`,
`this.agent.destroy()`, `this.emit('close')`.  The method has no
already-closed guard, so every call emits. -/
def closeClient (c : ClientState) : ClientState :=
  { timerArmed := false, agentDestroyed := true, closeEvents := c.closeEvents + 1 }

/-- Actions `handleRequest` performs on the external response. -/
inductive ResAction where
  | writeHead (status : Nat) (headers : List (String × String))
  | pipeBody
  deriving DecidableEq, Repr

/-- Outcome of the upstream HTTP client request issued by `handleRequest`:
either a response (with its possibly absent status code and headers)
arrives, or the client request errors. -/
inductive UpstreamResult where
  | response (status : Option Nat) (headers : List (String × String))
  | clientError
  deriving DecidableEq, Repr

/-- `handleRequest` (client.ts lines 66-93), as a function from the
upstream outcome to the actions taken on the external response.  On a
response: `res.writeHead(clientRes.statusCode || 500, clientRes.headers)`
then `pump(clientRes, res)`.  On a `clientReq` error the installed handler
(lines 87-89) has an empty body, only a TODO comment, so no action is
taken on the external response. -/
def handleRequestOutcome : UpstreamResult → List ResAction
  | .response status headers =>
    [ResAction.writeHead
        (match status with
         | some n => if n = 0 then 500 else n
         | none => 500)
        headers,
     ResAction.pipeBody]
  | .clientError => []

/-- The external request seen by `handleUpgrade`: method, url, HTTP
version and the flat raw header list (name, value, name, value, ...). -/
structure UpgradeReq where
  method : String
  url : String
  httpVersion : String
  rawHeaders : List String
  deriving DecidableEq, Repr

/-- JS `Array.prototype.join('\r\n')`. -/
def joinCRLF : List String → String
  | [] => ""
  | [a] => a
  | a :: b :: rest => a ++ "\r\n" ++ joinCRLF (b :: rest)

/-- The header loop of `handleUpgrade` (client.ts lines 129-131):
`for (i = 0; i < rawHeaders.length - 1; i += 2)` pushing
`rawHeaders[i] + ': ' + rawHeaders[i+1]`. -/
def headerLines : List String → List String
  | n :: v :: rest => (n ++ ": " ++ v) :: headerLines rest
  | _ => []

/-- The array built by `handleUpgrade` (client.ts lines 126-134): the
request line, the header lines, then two empty strings. -/
def upgradeArr (r : UpgradeReq) : List String :=
  (r.method ++ " " ++ r.url ++ " HTTP/" ++ r.httpVersion) ::
    (headerLines r.rawHeaders ++ ["", ""])

/-- `arr.join('\r\n')` (client.ts line 139): the prologue written to the
pooled socket. -/
def upgradePrologue (r : UpgradeReq) : String :=
  joinCRLF (upgradeArr r)

/-- Actions of the `handleUpgrade` callback on the two sockets. -/
inductive UpAction where
  | endExternal
  | destroyConn
  | pumpConnToExternal
  | pumpExternalToConn
  | writeConn (data : String)
  deriving DecidableEq, Repr

/-- The `createConnection` callback of `handleUpgrade` (client.ts lines
106-141).  `conn` is `some id` when a pooled socket was checked out,
`err` is whether the checkout failed, `readable`/`writable` are the state
of the external socket at callback time. -/
def handleUpgradeCb (err : Bool) (conn : Option Nat)
    (readable writable : Bool) (r : UpgradeReq) : List UpAction :=
  if err || conn.isNone then [UpAction.endExternal]
  else if !readable || !writable then [UpAction.destroyConn, UpAction.endExternal]
  else
    [UpAction.pumpConnToExternal, UpAction.pumpExternalToConn,
     UpAction.writeConn (upgradePrologue r)]

/-- Spec-side rendering of the header pairs, following the words of the
specification for the upgrade prologue: each raw header name/value pair in
original order and casing, each followed by CRLF. -/
def specHeaderBlock : List String → String
  | n :: v :: rest => n ++ ": " ++ v ++ "\r\n" ++ specHeaderBlock rest
  | _ => ""

/-- Spec-side prologue, following the specification words: the request
line `<METHOD> <URL> HTTP/<VERSION>` followed by CRLF, the raw header
pairs separated by CRLF, terminated by a blank line.  To be compared with
`upgradePrologue`, which is translated from the source. -/
def specPrologue (r : UpgradeReq) : String :=
  r.method ++ " " ++ r.url ++ " HTTP/" ++ r.httpVersion ++ "\r\n" ++
    specHeaderBlock r.rawHeaders ++ "\r\n"

/-- The record returned by `newClient` (part_000). -/
structure ClientInfo where
  id : String
  port : Nat
  maxConnCount : Nat
  deriving DecidableEq, Repr

/-- `ClientManager` state (part_000): the `clients` Map as an association
list in insertion order (keys unique), `stats.tunnels` as an `Int` (the
JS counter is decremented without a lower-bound guard), the configured
`max_tcp_sockets` option, and a ghost counter supplying fresh tokens that
stand for `Client` objects. -/
structure ManagerState where
  maxTcpOpt : Option Nat
  clients : List (String × Nat)
  tunnels : Int
  nextToken : Nat
  deriving DecidableEq, Repr

/-- `Map.prototype.has`. -/
def mapHas (m : List (String × Nat)) (k : String) : Bool :=
  (m.lookup k).isSome

/-- `Map.prototype.set`: replace the entry in place if the key is present,
otherwise append. -/
def mapSet : List (String × Nat) → String → Nat → List (String × Nat)
  | [], k, v => [(k, v)]
  | (k0, v0) :: rest, k, v =>
    if k0 = k then (k, v) :: rest else (k0, v0) :: mapSet rest k v

/-- `Map.prototype.delete`: remove the entry with the key, if any. -/
def mapDelete : List (String × Nat) → String → List (String × Nat)
  | [], _ => []
  | (k0, v0) :: rest, k =>
    if k0 = k then rest else (k0, v0) :: mapDelete rest k

/-- `removeClient(id)` (part_000 lines 54-61): if the id is absent, do
nothing; else decrement `stats.tunnels`, delete the registry entry and
call `client.close()`.  The `close` event emitted by that call reaches the
manager's `once('close')` listener, which calls `removeClient(id)` again;
the id is already absent then, so the re-entrant call is a no-op and is
not modelled further. -/
def removeClient (st : ManagerState) (id : String) : ManagerState :=
  if mapHas st.clients id then
    { st with tunnels := st.tunnels - 1, clients := mapDelete st.clients id }
  else st

/-- `newClient(id)` (part_000 lines 29-52).  `generatedId` is the value
`hri.random()` returns if a regeneration happens; `listenOk` is whether
`agent.listen()` resolves, and `port` the port it reports.  Steps: a
single regeneration when the requested id is taken; register the client;
on listen success increment `stats.tunnels` and return the info record;
on failure call `removeClient` and propagate the error. -/
def newClient (st : ManagerState) (requestedId generatedId : String)
    (listenOk : Bool) (port : Nat) : ManagerState × Except Unit ClientInfo :=
  let id := if mapHas st.clients requestedId then generatedId else requestedId
  let maxSockets := resolveMaxTcpSockets st.maxTcpOpt
  let st1 := { st with clients := mapSet st.clients id st.nextToken,
                       nextToken := st.nextToken + 1 }
  if listenOk then
    ({ st1 with tunnels := st1.tunnels + 1 },
     Except.ok { id := id, port := port, maxConnCount := maxSockets })
  else
    (removeClient st1 id, Except.error ())

/-- Reachable-state invariant of the agent machine. -/
def Inv (st : AgentState) : Prop :=
  st.connectedSockets = (st.live.length : Int) ∧
  st.connectedSockets ≤ (st.maxTcpSockets : Int) ∧
  1 ≤ st.maxTcpSockets ∧
  st.live.Nodup ∧
  st.enqueuedWaiters =
    st.servedPairs.map Prod.fst ++ st.flushedWaiters ++ st.waitingCreateConn ∧
  (st.closed = false → st.flushedWaiters = []) ∧
  (st.closed = true → st.waitingCreateConn = [])

theorem one_le_resolveMaxTcpSockets (o : Option Nat) : 1 ≤ resolveMaxTcpSockets o := by
  cases o with
  | none => simp [resolveMaxTcpSockets, DEFAULT_MAX_SOCKETS]
  | some n =>
    simp only [resolveMaxTcpSockets]
    split
    · simp [DEFAULT_MAX_SOCKETS]
    · omega

theorem inv_init (o : Option Nat) : Inv (initAgent o) := by
  refine ⟨rfl, ?_, one_le_resolveMaxTcpSockets o, List.nodup_nil, rfl, fun _ => rfl, ?_⟩
  · simp [initAgent]
  · intro h
    rfl

theorem inv_step (st : AgentState) (e : Event) (hv : validEvent st e = true)
    (hi : Inv st) : Inv (step st e).1 := by
  obtain ⟨hA, hB, hM, hN, hQ, hF, hW⟩ := hi
  cases e with
  | accept s =>
    have hfresh : s ∉ st.live := by
      simpa [validEvent] using hv
    simp only [step]
    split
    · exact ⟨hA, hB, hM, hN, hQ, hF, hW⟩
    · rename_i hcap
      push_neg at hcap
      have hnodup : (st.live ++ [s]).Nodup := by
        simp [List.nodup_append, hN, hfresh]
      have hlen : st.connectedSockets + 1 = ((st.live ++ [s]).length : Int) := by
        simp [List.length_append]
        omega
      cases hwt : st.waitingCreateConn with
      | cons w rest =>
        have hc : st.closed = false := by
          cases hc : st.closed
          · rfl
          · rw [hW hc] at hwt
            cases hwt
        have hfl : st.flushedWaiters = [] := hF hc
        rw [hwt, hfl] at hQ
        refine ⟨?_, ?_, hM, ?_, ?_, ?_, ?_⟩ <;> dsimp only
        · exact hlen
        · omega
        · exact hnodup
        · rw [hQ, hfl]
          simp
        · intro _
          exact hfl
        · intro h
          rw [hc] at h
          cases h
      | nil =>
        rw [hwt] at hQ
        refine ⟨?_, ?_, hM, ?_, ?_, ?_, ?_⟩ <;> dsimp only
        · exact hlen
        · omega
        · exact hnodup
        · simpa using hQ
        · exact hF
        · intro _
          rfl
  | socketClose s =>
    have hmem : s ∈ st.live := by
      simpa [validEvent] using hv
    have hpos : 1 ≤ st.live.length := List.length_pos.mpr (List.ne_nil_of_mem hmem)
    have hlen : (st.live.erase s).length = st.live.length - 1 :=
      List.length_erase_of_mem hmem
    refine ⟨?_, by simp only [step]; omega, hM, hN.erase s, hQ, hF, hW⟩
    simp only [step, hlen]
    omega
  | createConn w =>
    simp only [step]
    split
    · exact ⟨hA, hB, hM, hN, hQ, hF, hW⟩
    · rename_i hc
      have hc' : st.closed = false := by
        cases h : st.closed
        · rfl
        · exact absurd h hc
      have hfl : st.flushedWaiters = [] := hF hc'
      cases hav : st.availableSockets with
      | cons a rest => exact ⟨hA, hB, hM, hN, hQ, hF, hW⟩
      | nil =>
        refine ⟨hA, hB, hM, hN, ?_, fun _ => hfl, ?_⟩
        · rw [hQ, hfl]
          simp
        · intro h
          rw [hc'] at h
          cases h
  | serverClose =>
    refine ⟨hA, hB, hM, hN, ?_, ?_, fun _ => rfl⟩
    · simp only [step]
      rw [hQ]
      simp
    · intro h
      cases h

theorem inv_run : ∀ (es : List Event) (st : AgentState),
    validTrace st es = true → Inv st → Inv (runTrace st es).1 := by
  intro es
  induction es with
  | nil => intro st _ hi; exact hi
  | cons e es ih =>
    intro st hv hi
    simp only [validTrace, Bool.and_eq_true] at hv
    simpa only [runTrace] using ih (step st e).1 hv.2 (inv_step st e hv.1 hi)

theorem inv_reach (o : Option Nat) (es : List Event)
    (h : validTrace (initAgent o) es = true) : Inv (runTrace (initAgent o) es).1 :=
  inv_run es (initAgent o) h (inv_init o)

/-- Claim C1: the claim says an upstream HTTP client error before headers
are sent yields a `502 Bad Gateway`, else termination of the external
response.  The source contradicts its own stated intent: the `clientReq`
error handler (client.ts lines 87-89) carries a TODO comment announcing
the gateway response but has an empty body, so `handleRequest` performs
no action at all on the external response on upstream error: in
particular no `writeHead 502` is ever produced. -/
theorem claim_C1 : handleRequestOutcome UpstreamResult.clientError = [] := rfl

theorem closeEvents_iterate (n : Nat) (c : ClientState) :
    (Nat.iterate closeClient n c).closeEvents = c.closeEvents + n := by
  induction n generalizing c with
  | zero => simp
  | succ m ih =>
    rw [Function.iterate_succ_apply, ih]
    simp [closeClient]
    omega

/-- Counterexample to claim C2 as stated: two calls to `close()` emit two
`close` events, not exactly one, because `close()` (client.ts lines 60-64)
has no already-closed guard. -/
theorem claim_C2_cex :
    (Nat.iterate closeClient 2 freshClient).closeEvents = 2 ∧
    ¬(Nat.iterate closeClient 2 freshClient).closeEvents = 1 := by
  decide

/-- Claim C2, amended: every call to `close()` cancels the grace timer and
destroys the agent, so the timer/agent state after `n ≥ 1` calls equals
the state after one call, but each call emits one `close` event: `n`
calls emit `n` events, so the emission is not idempotent. -/
theorem claim_C2 (c : ClientState) (n : Nat) (h : 1 ≤ n) :
    (Nat.iterate closeClient n c).timerArmed = false ∧
    (Nat.iterate closeClient n c).agentDestroyed = true ∧
    (Nat.iterate closeClient n c).closeEvents = c.closeEvents + n := by
  obtain ⟨m, rfl⟩ : ∃ m, n = m + 1 := ⟨n - 1, by omega⟩
  refine ⟨?_, ?_, closeEvents_iterate (m + 1) c⟩
  · rw [Function.iterate_succ_apply']
    rfl
  · rw [Function.iterate_succ_apply']
    rfl

/-- Witness for claim C2 at a concrete input: the fresh client, closed
twice. -/
theorem claim_C2_witness :
    (Nat.iterate closeClient 2 freshClient).timerArmed = false ∧
    (Nat.iterate closeClient 2 freshClient).agentDestroyed = true ∧
    (Nat.iterate closeClient 2 freshClient).closeEvents = freshClient.closeEvents + 2 :=
  claim_C2 freshClient 2 (by decide)

/-- Counterexample to claim C4 as stated: accept one socket (it becomes
pooled in `availableSockets`), then the listener closes.  After `_onClose`
the pooled socket is still in `availableSockets` and no
`socket.destroy()` happened: `destroy()` (tunnel-agent.ts lines 202-205)
closes the listener but does not tear down pooled sockets. -/
theorem claim_C4_cex :
    validTrace (initAgent (some 10)) [Event.accept 0, Event.serverClose] = true ∧
    (runTrace (initAgent (some 10)) [Event.accept 0, Event.serverClose]).1.availableSockets = [0] ∧
    (runTrace (initAgent (some 10)) [Event.accept 0, Event.serverClose]).1.closed = true ∧
    Output.socketDestroyed 0 ∉ (runTrace (initAgent (some 10)) [Event.accept 0, Event.serverClose]).2 := by
  decide

/-- Claim C4, amended: when `_onClose` runs after `destroy()`, the agent
is marked closed, every queued waiter is completed with the `Closed` error
and the wait queue is cleared (and `end` is emitted); every subsequent
`createConnection` completes with `Closed`; but sockets in the available
pool are not destroyed and stay in the pool, and a socket accepted after
close (below the cap) is admitted normally rather than dropped. -/
theorem claim_C4 (st : AgentState) :
    step st Event.serverClose =
      ({ st with closed := true, waitingCreateConn := [],
                 flushedWaiters := st.flushedWaiters ++ st.waitingCreateConn },
       st.waitingCreateConn.map Output.closedError ++ [Output.endEvent]) ∧
    (∀ w, st.closed = true →
       step st (Event.createConn w) = (st, [Output.closedError w])) ∧
    (∀ s, st.closed = true → st.connectedSockets < (st.maxTcpSockets : Int) →
       (step st (Event.accept s)).1.connectedSockets = st.connectedSockets + 1 ∧
       Output.socketDestroyed s ∉ (step st (Event.accept s)).2) := by
  refine ⟨rfl, ?_, ?_⟩
  · intro w h
    simp [step, h]
  · intro s _ hlt
    have hni : ¬((st.maxTcpSockets : Int) ≤ st.connectedSockets) := not_le.mpr hlt
    simp only [step]
    rw [if_neg hni]
    cases st.waitingCreateConn with
    | cons w rest =>
      refine ⟨rfl, ?_⟩
      dsimp only
      split <;> simp
    | nil =>
      refine ⟨rfl, ?_⟩
      dsimp only
      split <;> simp

/-- Witness for claim C4 at a concrete closed agent. -/
theorem claim_C4_witness :
    step { initAgent none with closed := true } (Event.createConn 3) =
      ({ initAgent none with closed := true }, [Output.closedError 3]) ∧
    (step { initAgent none with closed := true } (Event.accept 5)).1.connectedSockets =
      ({ initAgent none with closed := true } : AgentState).connectedSockets + 1 :=
  ⟨(claim_C4 { initAgent none with closed := true }).2.1 3 rfl,
   ((claim_C4 { initAgent none with closed := true }).2.2 5 rfl (by decide)).1⟩

/-- Claim C5: evaluation of the code at the failing input.  `newClient`
registers the client before awaiting `agent.listen()`; when `listen`
fails it calls `removeClient`, which decrements `stats.tunnels` even
though the counter was never incremented for this client.  Starting from
an empty manager, a failed `newClient` leaves `stats.tunnels = -1` while
the registry is empty, violating `stats.tunnels = |clients|` and
non-negativity. -/
theorem claim_C5 :
    (newClient { maxTcpOpt := none, clients := [], tunnels := 0, nextToken := 0 }
        "alpha" "brave-cat" false 8080).1.tunnels = -1 ∧
    (newClient { maxTcpOpt := none, clients := [], tunnels := 0, nextToken := 0 }
        "alpha" "brave-cat" false 8080).1.clients = [] := by
  constructor <;> rfl

/-- Claim C10: `createConnection` on a closed agent completes the callback
synchronously with the `closed` error and leaves the agent state exactly
unchanged: no socket is removed from `availableSockets`, nothing is
queued onto `waitingCreateConn`, and no socket is delivered. -/
theorem claim_C10 (st : AgentState) (w : Nat) (h : st.closed = true) :
    step st (Event.createConn w) = (st, [Output.closedError w]) := by
  simp [step, h]

/-- Witness for claim C10: a closed agent with one pooled socket; the
call errors and the pool is untouched. -/
theorem claim_C10_witness :
    step { initAgent none with closed := true, availableSockets := [7] } (Event.createConn 3) =
      ({ initAgent none with closed := true, availableSockets := [7] }, [Output.closedError 3]) :=
  claim_C10 { initAgent none with closed := true, availableSockets := [7] } 3 rfl

/-- Claim C6: over every well-formed sequence of accepts, socket closes,
`createConnection` calls and listener closes, `0 ≤ connectedSockets ≤
maxTcpSockets`; a socket accepted while `connectedSockets ≥
maxTcpSockets` is destroyed and dropped without being counted (the state
is unchanged); and the close of an admitted socket decrements the count
exactly once: the count drops by one and the socket leaves `live`, so its
close handler cannot fire again. -/
theorem claim_C6 (o : Option Nat) (es : List Event)
    (h : validTrace (initAgent o) es = true) :
    0 ≤ (runTrace (initAgent o) es).1.connectedSockets ∧
    (runTrace (initAgent o) es).1.connectedSockets ≤
      ((runTrace (initAgent o) es).1.maxTcpSockets : Int) ∧
    (∀ s, ((runTrace (initAgent o) es).1.maxTcpSockets : Int) ≤
        (runTrace (initAgent o) es).1.connectedSockets →
      step (runTrace (initAgent o) es).1 (Event.accept s) =
        ((runTrace (initAgent o) es).1, [Output.socketDestroyed s])) ∧
    (∀ s, s ∈ (runTrace (initAgent o) es).1.live →
      (step (runTrace (initAgent o) es).1 (Event.socketClose s)).1.connectedSockets =
        (runTrace (initAgent o) es).1.connectedSockets - 1 ∧
      s ∉ (step (runTrace (initAgent o) es).1 (Event.socketClose s)).1.live) := by
  obtain ⟨hA, hB, hM, hN, _, _, _⟩ := inv_reach o es h
  refine ⟨by omega, hB, ?_, ?_⟩
  · intro s hcap
    simp [step, hcap]
  · intro s hmem
    refine ⟨rfl, ?_⟩
    intro hin
    dsimp only [step] at hin
    rw [List.Nodup.mem_erase_iff hN] at hin
    exact hin.1 rfl

/-- Witness for claim C6: an agent capped at one socket, after one
accept; a second accept is destroyed and dropped, and the close of the
admitted socket decrements to zero. -/
theorem claim_C6_witness :
    0 ≤ (runTrace (initAgent (some 1)) [Event.accept 0]).1.connectedSockets ∧
    (runTrace (initAgent (some 1)) [Event.accept 0]).1.connectedSockets ≤
      ((runTrace (initAgent (some 1)) [Event.accept 0]).1.maxTcpSockets : Int) ∧
    step (runTrace (initAgent (some 1)) [Event.accept 0]).1 (Event.accept 5) =
      ((runTrace (initAgent (some 1)) [Event.accept 0]).1, [Output.socketDestroyed 5]) ∧
    (step (runTrace (initAgent (some 1)) [Event.accept 0]).1 (Event.socketClose 0)).1.connectedSockets =
      (runTrace (initAgent (some 1)) [Event.accept 0]).1.connectedSockets - 1 ∧
    0 ∉ (step (runTrace (initAgent (some 1)) [Event.accept 0]).1 (Event.socketClose 0)).1.live :=
  ⟨(claim_C6 (some 1) [Event.accept 0] (by decide)).1,
   (claim_C6 (some 1) [Event.accept 0] (by decide)).2.1,
   (claim_C6 (some 1) [Event.accept 0] (by decide)).2.2.1 5 (by decide),
   ((claim_C6 (some 1) [Event.accept 0] (by decide)).2.2.2 0 (by decide)).1,
   ((claim_C6 (some 1) [Event.accept 0] (by decide)).2.2.2 0 (by decide)).2⟩

/-- Claim C7: FIFO delivery.  On every reachable state the full arrival
order of queued waiters equals the waiters already served (in delivery
order, each paired with the socket that became available for it), then
the waiters flushed with `Closed` at close, then the still-pending
waiters: so the i-th queued waiter is served i-th, by the i-th socket
that became available to a waiter.  And a `createConnection` call that
finds `availableSockets` non-empty synchronously receives the head of
that queue. -/
theorem claim_C7 (o : Option Nat) (es : List Event)
    (h : validTrace (initAgent o) es = true) :
    (runTrace (initAgent o) es).1.enqueuedWaiters =
      (runTrace (initAgent o) es).1.servedPairs.map Prod.fst ++
        (runTrace (initAgent o) es).1.flushedWaiters ++
        (runTrace (initAgent o) es).1.waitingCreateConn ∧
    (∀ (st : AgentState) (w s : Nat) (rest : List Nat),
      st.closed = false → st.availableSockets = s :: rest →
      step st (Event.createConn w) =
        ({ st with availableSockets := rest }, [Output.giveSocket w s])) := by
  obtain ⟨_, _, _, _, hQ, _, _⟩ := inv_reach o es h
  refine ⟨hQ, ?_⟩
  intro st w s rest hc hav
  simp [step, hc, hav]

/-- Witness for claim C7: two waiters queue, two sockets arrive and serve
them in order; and a call finding the pool `[7, 8]` receives `7`. -/
theorem claim_C7_witness :
    (runTrace (initAgent (some 10))
        [Event.createConn 4, Event.createConn 6, Event.accept 0, Event.accept 1]).1.enqueuedWaiters =
      (runTrace (initAgent (some 10))
          [Event.createConn 4, Event.createConn 6, Event.accept 0, Event.accept 1]).1.servedPairs.map Prod.fst ++
        (runTrace (initAgent (some 10))
            [Event.createConn 4, Event.createConn 6, Event.accept 0, Event.accept 1]).1.flushedWaiters ++
        (runTrace (initAgent (some 10))
            [Event.createConn 4, Event.createConn 6, Event.accept 0, Event.accept 1]).1.waitingCreateConn ∧
    step { initAgent none with availableSockets := [7, 8] } (Event.createConn 9) =
      ({ initAgent none with availableSockets := [8] }, [Output.giveSocket 9 7]) :=
  ⟨(claim_C7 (some 10)
      [Event.createConn 4, Event.createConn 6, Event.accept 0, Event.accept 1] (by decide)).1,
   (claim_C7 (some 10)
      [Event.createConn 4, Event.createConn 6, Event.accept 0, Event.accept 1] (by decide)).2
     { initAgent none with availableSockets := [7, 8] } 9 7 [8] rfl rfl⟩

/-- Counterexample to claim C3 as stated: an admitted socket, then the
listener closes (`closed` becomes true), then the socket closes.  The
close handler (tunnel-agent.ts lines 118-132) emits `offline` without
consulting `closed`, so `offline` is emitted although the agent is
closed, contradicting the no-offline-once-closed part of the claim. -/
theorem claim_C3_cex :
    validTrace (initAgent (some 10)) [Event.accept 0, Event.serverClose, Event.socketClose 0] = true ∧
    (runTrace (initAgent (some 10)) [Event.accept 0, Event.serverClose]).1.closed = true ∧
    Output.offline ∈
      (step (runTrace (initAgent (some 10)) [Event.accept 0, Event.serverClose]).1
        (Event.socketClose 0)).2 := by
  decide

/-- Claim C3, amended: over every reachable agent state and well-formed
next event, `online` is emitted exactly when an accept occurs with
`connectedSockets = 0`, and `offline` is emitted exactly when an admitted
socket closes with `connectedSockets = 1`, whether or not the agent is
closed (the source close handler does not consult `closed`). -/
theorem claim_C3 (o : Option Nat) (es : List Event) (e : Event)
    (hv : validTrace (initAgent o) es = true)
    (he : validEvent (runTrace (initAgent o) es).1 e = true) :
    (Output.online ∈ (step (runTrace (initAgent o) es).1 e).2 ↔
      (∃ s, e = Event.accept s) ∧
        (runTrace (initAgent o) es).1.connectedSockets = 0) ∧
    (Output.offline ∈ (step (runTrace (initAgent o) es).1 e).2 ↔
      (∃ s, e = Event.socketClose s) ∧
        (runTrace (initAgent o) es).1.connectedSockets = 1) := by
  obtain ⟨hA, hB, hM, hN, _, _, _⟩ := inv_reach o es hv
  set st := (runTrace (initAgent o) es).1 with hst
  cases e with
  | accept s =>
    simp only [step]
    by_cases hcap : (st.maxTcpSockets : Int) ≤ st.connectedSockets
    · rw [if_pos hcap]
      have hne : ¬st.connectedSockets = 0 := by omega
      constructor <;> simp [hne]
    · rw [if_neg hcap]
      cases hwt : st.waitingCreateConn with
      | cons w rest =>
        dsimp only
        by_cases h0 : st.connectedSockets = 0 <;> simp [h0]
      | nil =>
        dsimp only
        by_cases h0 : st.connectedSockets = 0 <;> simp [h0]
  | socketClose s =>
    have hmem : s ∈ st.live := by simpa [validEvent] using he
    have hge : 1 ≤ st.live.length := List.length_pos.mpr (List.ne_nil_of_mem hmem)
    simp only [step]
    constructor
    · constructor
      · intro hmem2
        exfalso
        revert hmem2
        split <;> simp
      · rintro ⟨⟨s1, hs1⟩, _⟩
        cases hs1
    · by_cases h1 : st.connectedSockets = 1
      · rw [if_pos (by omega)]
        simp [h1]
      · rw [if_neg (by omega)]
        simp [h1]
  | createConn w =>
    simp only [step]
    split
    · simp
    · cases hav : st.availableSockets with
      | cons a rest =>
        dsimp only
        simp
      | nil =>
        dsimp only
        simp
  | serverClose =>
    simp only [step]
    constructor <;> simp

/-- Witness for claim C3: the amended emission rule applied at the
closed-agent state of the counterexample trace: the socket close at
count one emits `offline`. -/
theorem claim_C3_witness :
    Output.offline ∈
      (step (runTrace (initAgent (some 10)) [Event.accept 0, Event.serverClose]).1
        (Event.socketClose 0)).2 :=
  ((claim_C3 (some 10) [Event.accept 0, Event.serverClose] (Event.socketClose 0)
      (by decide) (by decide)).2).mpr ⟨⟨0, rfl⟩, by decide⟩

theorem mapSet_lookup_self (m : List (String × Nat)) (k : String) (v : Nat) :
    (mapSet m k v).lookup k = some v := by
  induction m with
  | nil => simp [mapSet]
  | cons p rest ih =>
    obtain ⟨k0, v0⟩ := p
    by_cases hk : k0 = k
    · subst hk
      simp [mapSet]
    · have hb : (k == k0) = false := beq_eq_false_iff_ne.mpr (Ne.symm hk)
      simp [mapSet, hk, List.lookup, hb, ih]

theorem mapSet_lookup_other (m : List (String × Nat)) (k k2 : String) (v : Nat)
    (h : k2 ≠ k) : (mapSet m k v).lookup k2 = m.lookup k2 := by
  have hb : (k2 == k) = false := beq_eq_false_iff_ne.mpr h
  induction m with
  | nil => simp [mapSet, List.lookup, hb]
  | cons p rest ih =>
    obtain ⟨k0, v0⟩ := p
    by_cases hk : k0 = k
    · subst hk
      simp [mapSet, List.lookup, hb]
    · simp [mapSet, hk, List.lookup, ih]

/-- Claim C8: id selection in `newClient`.  A free requested id is used
as-is and the client is registered under it; a taken requested id causes
exactly one regeneration (the definition performs a single regeneration,
mirroring the source's single `hri.random()` call with no retry loop):
the client is registered under and returns the generated id, and the
registry entry of the requested id is untouched. -/
theorem claim_C8 (st : ManagerState) (requestedId generatedId : String) (port : Nat) :
    (mapHas st.clients requestedId = false →
      (newClient st requestedId generatedId true port).2 =
        Except.ok { id := requestedId, port := port,
                    maxConnCount := resolveMaxTcpSockets st.maxTcpOpt } ∧
      mapHas (newClient st requestedId generatedId true port).1.clients requestedId = true) ∧
    (mapHas st.clients requestedId = true → mapHas st.clients generatedId = false →
      (newClient st requestedId generatedId true port).2 =
        Except.ok { id := generatedId, port := port,
                    maxConnCount := resolveMaxTcpSockets st.maxTcpOpt } ∧
      mapHas (newClient st requestedId generatedId true port).1.clients generatedId = true ∧
      (newClient st requestedId generatedId true port).1.clients.lookup requestedId =
        st.clients.lookup requestedId) := by
  constructor
  · intro hfree
    have h1 : (newClient st requestedId generatedId true port).1.clients =
        mapSet st.clients requestedId st.nextToken := by
      simp [newClient, hfree]
    constructor
    · simp [newClient, hfree]
    · rw [h1]
      simp [mapHas, mapSet_lookup_self]
  · intro htaken hfree
    have hne : requestedId ≠ generatedId := by
      intro h
      rw [h] at htaken
      rw [htaken] at hfree
      cases hfree
    have h1 : (newClient st requestedId generatedId true port).1.clients =
        mapSet st.clients generatedId st.nextToken := by
      simp [newClient, htaken]
    refine ⟨?_, ?_, ?_⟩
    · simp [newClient, htaken]
    · rw [h1]
      simp [mapHas, mapSet_lookup_self]
    · rw [h1]
      exact mapSet_lookup_other _ _ _ _ hne

/-- Witness for claim C8: requested id `alpha` is taken, generated id
`brave` is fresh: the call returns `brave`, registers it, and the entry
for `alpha` is untouched. -/
theorem claim_C8_witness :
    (newClient { maxTcpOpt := none, clients := [("alpha", 0)], tunnels := 1, nextToken := 1 }
        "alpha" "brave" true 9).2 =
      Except.ok { id := "brave", port := 9, maxConnCount := 10 } ∧
    mapHas (newClient { maxTcpOpt := none, clients := [("alpha", 0)], tunnels := 1, nextToken := 1 }
        "alpha" "brave" true 9).1.clients "brave" = true ∧
    (newClient { maxTcpOpt := none, clients := [("alpha", 0)], tunnels := 1, nextToken := 1 }
        "alpha" "brave" true 9).1.clients.lookup "alpha" =
      ([("alpha", 0)] : List (String × Nat)).lookup "alpha" :=
  (claim_C8 { maxTcpOpt := none, clients := [("alpha", 0)], tunnels := 1, nextToken := 1 }
      "alpha" "brave" 9).2 rfl rfl

theorem joinCRLF_cons_append (a : String) (l : List String) :
    joinCRLF (a :: (l ++ ["", ""])) = a ++ "\r\n" ++ joinCRLF (l ++ ["", ""]) := by
  cases l with
  | nil => rfl
  | cons b rest => rfl

theorem joinCRLF_headerLines : ∀ hs : List String,
    joinCRLF (headerLines hs ++ ["", ""]) = specHeaderBlock hs ++ "\r\n"
  | [] => by
    simp [headerLines, specHeaderBlock, joinCRLF, String.append_empty, String.empty_append]
  | [x] => by
    simp [headerLines, specHeaderBlock, joinCRLF, String.append_empty, String.empty_append]
  | n :: v :: rest => by
    simp only [headerLines, specHeaderBlock, List.cons_append, joinCRLF_cons_append,
      joinCRLF_headerLines rest]
    simp [String.append_assoc]

/-- The source serialization (`arr.join('\r\n')` over the request line,
header lines and two empty strings) equals the spec-side serialization:
request line, CRLF, header pairs each followed by CRLF, blank line. -/
theorem upgradePrologue_eq_specPrologue (r : UpgradeReq) :
    upgradePrologue r = specPrologue r := by
  simp only [upgradePrologue, upgradeArr, specPrologue]
  rw [joinCRLF_cons_append, joinCRLF_headerLines]
  simp [String.append_assoc]

/-- Claim C9: when the checkout succeeded and the external socket is
still readable and writable, `handleUpgrade` wires both pipe directions
first and only then writes the prologue to the pooled socket, and the
prologue is exactly the request line followed by the raw header pairs in
original order and casing, CRLF-separated and terminated by a blank
line. -/
theorem claim_C9 (k : Nat) (err readable writable : Bool) (r : UpgradeReq)
    (he : err = false) (hr : readable = true) (hw : writable = true) :
    handleUpgradeCb err (some k) readable writable r =
      [UpAction.pumpConnToExternal, UpAction.pumpExternalToConn,
       UpAction.writeConn (specPrologue r)] := by
  subst he hr hw
  simp [handleUpgradeCb, upgradePrologue_eq_specPrologue]

/-- Witness for claim C9 at a concrete upgrade request. -/
theorem claim_C9_witness :
    handleUpgradeCb false (some 1) true true
        ⟨"GET", "/chat", "1.1", ["Host", "example.com", "Upgrade", "websocket"]⟩ =
      [UpAction.pumpConnToExternal, UpAction.pumpExternalToConn,
       UpAction.writeConn (specPrologue
         ⟨"GET", "/chat", "1.1", ["Host", "example.com", "Upgrade", "websocket"]⟩)] :=
  claim_C9 1 false true true
    ⟨"GET", "/chat", "1.1", ["Host", "example.com", "Upgrade", "websocket"]⟩ rfl rfl rfl

end Openport
